import Mathlib

/-!
Verification of the Personal Core Sheet worksheet model (src/src/App.tsx).

The program keeps a single record (`SheetData`) with three visions, an
engine slogan, three engines and six episodes, persists it to a key-value
store as JSON, validates per-field character limits before printing, and
picks an episode font size from the text length.

Strings are modelled as Lean `String` with `String.length` playing the role
of the host platform's character count.  The JSON platform primitives
(`JSON.parse` / `JSON.stringify`) are not part of this repository; they are
modelled at the value level: a stored blob is either a JSON value or a
string the parser rejects.
-/

namespace PersonalCoreSheet

/-- `type Episode = { from: string; text: string }` (App.tsx line 4).
`from` is a Lean keyword, so the field is named `from_`. -/
structure Episode where
  from_ : String
  text : String
  deriving Repr, DecidableEq

/-- `interface SheetData` (App.tsx lines 6-11). -/
structure SheetData where
  visions : List String
  engineSlogan : String
  engines : List String
  episodes : List Episode
  deriving Repr, DecidableEq

/-- `const STORAGE_KEY = "pcs-sheet-data"` (App.tsx line 20). -/
def STORAGE_KEY : String := "pcs-sheet-data"

/-- `emptyEpisodes`: six episodes with empty `from` and `text`
(App.tsx lines 23-26). -/
def emptyEpisodes : List Episode :=
  List.replicate 6 { from_ := "", text := "" }

/-- The all-empty default record used by the `useState` initializer when
nothing valid was loaded (App.tsx lines 54-59). -/
def defaultData : SheetData :=
  { visions := ["", "", ""]
    engineSlogan := ""
    engines := ["", "", ""]
    episodes := emptyEpisodes }

/-! ### JSON values and the storage blob

JavaScript values produced by `JSON.parse` are modelled by `Json`.
A stored string is either valid JSON text (denoting a `Json` value) or a
string `JSON.parse` throws on; the text-level serialization itself is the
platform's and is kept abstract. -/

/-- A JSON value as produced by the platform's `JSON.parse`. -/
inductive Json where
  | null : Json
  | bool (b : Bool) : Json
  | num (n : Int) : Json
  | str (s : String) : Json
  | arr (elems : List Json) : Json
  | obj (fields : List (String × Json)) : Json

/-- A stored blob: either a string that parses to a JSON value, or a string
`JSON.parse` rejects (e.g. `"not json"`). -/
inductive Blob where
  | json (j : Json) : Blob
  | notJson (raw : String) : Blob

/-- JavaScript property access `parsed.key` on a parsed JSON value:
`some` the field's value on an object that has the key, otherwise
`undefined`, modelled as `none`. -/
def Json.getField (j : Json) (key : String) : Option Json :=
  match j with
  | .obj fields => fields.lookup key
  | _ => none

/-- JavaScript truthiness of a parsed JSON value (`parsed && ...`,
App.tsx line 36). -/
def Json.truthy : Json → Bool
  | .null => false
  | .bool b => b
  | .num n => n != 0
  | .str s => s != ""
  | .arr _ => true
  | .obj _ => true

/-- `Array.isArray(x)` on an optional field value (`undefined` is not an
array). -/
def isArrayField : Option Json → Bool
  | some (.arr _) => true
  | _ => false

/-- `typeof x === "string"` on an optional field value. -/
def isStringField : Option Json → Bool
  | some (.str _) => true
  | _ => false

/-- The structural check of `loadDataFromStorage` (App.tsx lines 35-41):
`parsed && Array.isArray(parsed.visions) && typeof parsed.engineSlogan ===
"string" && Array.isArray(parsed.engines) && Array.isArray(parsed.episodes)`. -/
def shapeCheck (parsed : Json) : Bool :=
  parsed.truthy
    && isArrayField (parsed.getField "visions")
    && isStringField (parsed.getField "engineSlogan")
    && isArrayField (parsed.getField "engines")
    && isArrayField (parsed.getField "episodes")

/-- `loadDataFromStorage` (App.tsx lines 29-49): read the blob under the
fixed key (`none` when the key is unset), parse it (a `notJson` blob makes
`JSON.parse` throw, caught and converted to `null`), and return the parsed
value only when the shape check passes.  The returned value is the raw
parsed JSON value, which the source casts to `SheetData`. -/
def loadDataFromStorage : Option Blob → Option Json
  | none => none
  | some (.notJson _) => none
  | some (.json parsed) => if shapeCheck parsed then some parsed else none

/-- `JSON.stringify` on an episode: `{"from": ..., "text": ...}`, keys in
property order. -/
def episodeToJson (ep : Episode) : Json :=
  .obj [("from", .str ep.from_), ("text", .str ep.text)]

/-- `JSON.stringify(data)` at the value level: the object literal's
property order `visions, engineSlogan, engines, episodes`
(App.tsx lines 54-59, 66). -/
def toJson (d : SheetData) : Json :=
  .obj
    [ ("visions", .arr (d.visions.map .str))
    , ("engineSlogan", .str d.engineSlogan)
    , ("engines", .arr (d.engines.map .str))
    , ("episodes", .arr (d.episodes.map episodeToJson)) ]

/-- Reading a JSON value back as a typed record: every element a string,
episodes objects with string `from` and `text`.  `none` when the value does
not denote a well-typed `SheetData`.  Used to state value-equality between
a loaded JSON value and a record. -/
def stringFromJson : Json → Option String
  | .str s => some s
  | _ => none

/-- Decode one episode object. -/
def episodeFromJson (j : Json) : Option Episode :=
  match j.getField "from", j.getField "text" with
  | some (.str f), some (.str t) => some { from_ := f, text := t }
  | _, _ => none

/-- Decode a full record from a JSON value. -/
def fromJson (j : Json) : Option SheetData :=
  match j.getField "visions", j.getField "engineSlogan",
        j.getField "engines", j.getField "episodes" with
  | some (.arr vs), some (.str slogan), some (.arr es), some (.arr eps) =>
    match vs.mapM stringFromJson, es.mapM stringFromJson,
          eps.mapM episodeFromJson with
    | some visions, some engines, some episodes =>
      some { visions := visions, engineSlogan := slogan,
             engines := engines, episodes := episodes }
    | _, _, _ => none
  | _, _, _, _ => none

/-- The `useState` initializer (App.tsx lines 51-61): the loaded value, or
the all-empty default when `loadDataFromStorage` returned `null`.  The
state is a JavaScript value, modelled as `Json`. -/
def initialState (store : Option Blob) : Json :=
  match loadDataFromStorage store with
  | some loaded => loaded
  | none => toJson defaultData

/-! ### Mutators

Each `handle*Change` callback builds the next record from the previous one.
Array element assignment after a copy (`visions[index] = value` on a fresh
copy, App.tsx lines 74-76) is `List.set`; the indices the view passes are
the positions `0 ≤ i < length` of `map`, always in range.
`episodes.map((ep, i) => i === index ? ... : ep)` is an index-aware map,
modelled by `jsMapIdx`. -/

/-- JavaScript `Array.prototype.map` with the element index as second
callback argument. -/
def jsMapIdx (f : Nat → α → α) : List α → List α
  | [] => []
  | a :: l => f 0 a :: jsMapIdx (fun i x => f (i + 1) x) l

/-- `handleVisionChange` (App.tsx lines 72-78). -/
def handleVisionChange (prev : SheetData) (index : Nat) (value : String) :
    SheetData :=
  { prev with visions := prev.visions.set index value }

/-- `handleEngineChange` (App.tsx lines 80-86). -/
def handleEngineChange (prev : SheetData) (index : Nat) (value : String) :
    SheetData :=
  { prev with engines := prev.engines.set index value }

/-- `keyof Episode`: the two episode sub-fields. -/
inductive EpisodeField where
  | from_ : EpisodeField
  | text : EpisodeField
  deriving Repr, DecidableEq

/-- `{ ...ep, [field]: value }` (App.tsx line 95). -/
def updateEpisode (ep : Episode) : EpisodeField → String → Episode
  | .from_, value => { ep with from_ := value }
  | .text, value => { ep with text := value }

/-- `handleEpisodeChange` (App.tsx lines 88-99). -/
def handleEpisodeChange (prev : SheetData) (index : Nat)
    (field : EpisodeField) (value : String) : SheetData :=
  { prev with
    episodes :=
      jsMapIdx (fun i ep => if i = index then updateEpisode ep field value
                            else ep) prev.episodes }

/-- The engine-slogan input's inline `onChange`
(`setData(prev => ({ ...prev, engineSlogan: e.target.value }))`,
App.tsx lines 300-305). -/
def setEngineSlogan (prev : SheetData) (value : String) : SheetData :=
  { prev with engineSlogan := value }

/-! ### Persistence of mutations

`useEffect(..., [data])` (App.tsx lines 64-70) runs once after each state
change and writes `JSON.stringify(data)` under `STORAGE_KEY`.  A mutation
event is therefore a state update followed by exactly one store write of
the whole new record. -/

/-- A write to the storage backend: `localStorage.setItem(key, string)`. -/
inductive StorageOp where
  | setItem (key : String) (blob : Blob) : StorageOp

/-- One user input event, dispatched to the corresponding mutator. -/
inductive MutEvent where
  | setVision (index : Nat) (value : String) : MutEvent
  | setEngine (index : Nat) (value : String) : MutEvent
  | setSlogan (value : String) : MutEvent
  | setEpisode (index : Nat) (field : EpisodeField) (value : String) :
      MutEvent

/-- The state transition of one input event. -/
def applyMut (d : SheetData) : MutEvent → SheetData
  | .setVision index value => handleVisionChange d index value
  | .setEngine index value => handleEngineChange d index value
  | .setSlogan value => setEngineSlogan d value
  | .setEpisode index field value => handleEpisodeChange d index field value

/-- One input event with its persistence effect: the new record and the
single `setItem` the save effect performs for it (App.tsx lines 64-70). -/
def stepMut (d : SheetData) (e : MutEvent) : SheetData × List StorageOp :=
  (applyMut d e, [.setItem STORAGE_KEY (.json (toJson (applyMut d e)))])

/-! ### Validation and the print flow -/

/-- `validateTextLength` (App.tsx lines 102-104): `text.length <= maxLength`. -/
def validateTextLength (text : String) (maxLength : Nat) : Bool :=
  text.length ≤ maxLength

/-- `getEpisodeFontSize` (App.tsx lines 107-115). -/
def getEpisodeFontSize (textLength : Nat) : String :=
  if textLength ≤ 40 then "9.6px"
  else if textLength ≤ 80 then "7.5px"
  else "7.5px"

/-- The outcome of the guard sequence of `handlePrint`
(App.tsx lines 118-169): `ok` when control reaches `window.print()`,
otherwise the kind of the first alert taken. -/
inductive ValidationResult where
  | ok : ValidationResult
  | visionTooLong : ValidationResult
  | sloganTooLong : ValidationResult
  | engineTooLong : ValidationResult
  | episodeTextTooLong : ValidationResult
  | episodeFromTooLong : ValidationResult
  deriving Repr, DecidableEq

/-- The guard sequence of `handlePrint` (App.tsx lines 118-169), each guard
exactly as in the source: `filter` the offending entries and test
`errors.length > 0`. -/
def validate (d : SheetData) : ValidationResult :=
  if 0 < (d.visions.filter (fun v => !validateTextLength v 30)).length then
    .visionTooLong
  else if !validateTextLength d.engineSlogan 30 then
    .sloganTooLong
  else if 0 < (d.engines.filter (fun e => !validateTextLength e 30)).length then
    .engineTooLong
  else if 0 < (d.episodes.filter
      (fun ep => !validateTextLength ep.text 80)).length then
    .episodeTextTooLong
  else if 0 < (d.episodes.filter
      (fun ep => !validateTextLength ep.from_ 8)).length then
    .episodeFromTooLong
  else
    .ok

/-- An observable user-interface action of `handlePrint`: an `alert` with
its message, or the `window.print()` call. -/
inductive UIAction where
  | alert (message : String) : UIAction
  | printCall : UIAction
  deriving Repr, DecidableEq

/-- The alert text of each violation kind, verbatim from App.tsx
(lines 122-124, 130-133, 139-141, 150-152, 161-163); `ok` raises no alert
and maps to the empty string. -/
def violationMessage : ValidationResult → String
  | .ok => ""
  | .visionTooLong =>
    "文字数オーバーです\n【My Vision】は各30字以内で入力してください。"
  | .sloganTooLong =>
    "文字数オーバーです\n【My Engine】のスローガンは30字以内で入力してください。"
  | .engineTooLong =>
    "文字数オーバーです\n【My Engine】の原動力は各30字以内で入力してください。"
  | .episodeTextTooLong =>
    "文字数オーバーです\n【My Episode】のエピソードは各80字以内で入力してください。"
  | .episodeFromTooLong =>
    "文字数オーバーです\n【My Episode】の【from】は8字以内で入力してください。"

/-- `handlePrint` (App.tsx lines 118-169) as the list of UI actions it
performs, in order: each guard alerts its message and returns; the final
line calls `window.print()`. -/
def handlePrint (d : SheetData) : List UIAction :=
  if 0 < (d.visions.filter (fun v => !validateTextLength v 30)).length then
    [.alert (violationMessage .visionTooLong)]
  else if !validateTextLength d.engineSlogan 30 then
    [.alert (violationMessage .sloganTooLong)]
  else if 0 < (d.engines.filter (fun e => !validateTextLength e 30)).length then
    [.alert (violationMessage .engineTooLong)]
  else if 0 < (d.episodes.filter
      (fun ep => !validateTextLength ep.text 80)).length then
    [.alert (violationMessage .episodeTextTooLong)]
  else if 0 < (d.episodes.filter
      (fun ep => !validateTextLength ep.from_ 8)).length then
    [.alert (violationMessage .episodeFromTooLong)]
  else
    [.printCall]

/-- The print trigger as a step: `handlePrint` reads the record and never
updates the state, so the record is returned unchanged next to the actions
performed. -/
def printStep (d : SheetData) : SheetData × List UIAction :=
  (d, handlePrint d)

/-! ### Spec-side formulation of validation

The specification states validation as five rules checked in a fixed
precedence order, the first violated rule winning.  These definitions
follow the spec's wording; the theorems compare them with `validate`,
which is translated from the source. -/

/-- The five validation rules of the spec, one per field group. -/
inductive Rule where
  | vision : Rule
  | slogan : Rule
  | engine : Rule
  | episodeText : Rule
  | episodeFrom : Rule
  deriving Repr, DecidableEq

/-- The violation kind a rule reports. -/
def Rule.result : Rule → ValidationResult
  | .vision => .visionTooLong
  | .slogan => .sloganTooLong
  | .engine => .engineTooLong
  | .episodeText => .episodeTextTooLong
  | .episodeFrom => .episodeFromTooLong

/-- The fixed precedence order of the rules. -/
def precedenceOrder : List Rule :=
  [.vision, .slogan, .engine, .episodeText, .episodeFrom]

/-- Whether a rule is currently violated by the record: some field of the
rule's group exceeds the group's limit. -/
def ruleViolated (d : SheetData) : Rule → Bool
  | .vision => d.visions.any fun v => 30 < v.length
  | .slogan => 30 < d.engineSlogan.length
  | .engine => d.engines.any fun e => 30 < e.length
  | .episodeText => d.episodes.any fun ep => 80 < ep.text.length
  | .episodeFrom => d.episodes.any fun ep => 8 < ep.from_.length

/-- The spec's validation result: the first violated rule in precedence
order, `ok` when no rule is violated. -/
def specFirstViolation (d : SheetData) : ValidationResult :=
  match precedenceOrder.find? (ruleViolated d) with
  | some r => r.result
  | none => .ok

/-- Every field of the record is within its stated limit. -/
def withinLimits (d : SheetData) : Prop :=
  (∀ v ∈ d.visions, v.length ≤ 30) ∧
  d.engineSlogan.length ≤ 30 ∧
  (∀ e ∈ d.engines, e.length ≤ 30) ∧
  (∀ ep ∈ d.episodes, ep.text.length ≤ 80 ∧ ep.from_.length ≤ 8)

end PersonalCoreSheet

namespace PersonalCoreSheet

/-! ### Helper lemmas -/

lemma filter_length_pos {α : Type} (p : α → Bool) (l : List α) :
    0 < (l.filter p).length ↔ ∃ x ∈ l, p x = true := by
  rw [List.length_pos, Ne, List.filter_eq_nil_iff]
  push_neg
  simp

lemma not_validateTextLength (s : String) (m : Nat) :
    (!validateTextLength s m) = decide (m < s.length) := by
  by_cases h : s.length ≤ m
  · simp [validateTextLength, h, Nat.not_lt.mpr h]
  · simp [validateTextLength, h, Nat.not_le.mp h]

/-- `withinLimits` is the joint negation of the five rule violations. -/
lemma withinLimits_iff (d : SheetData) :
    withinLimits d ↔
      (¬ ∃ v ∈ d.visions, 30 < v.length) ∧
      ¬ 30 < d.engineSlogan.length ∧
      (¬ ∃ e ∈ d.engines, 30 < e.length) ∧
      (¬ ∃ ep ∈ d.episodes, 80 < ep.text.length) ∧
      (¬ ∃ ep ∈ d.episodes, 8 < ep.from_.length) := by
  unfold withinLimits
  push_neg
  constructor
  · rintro ⟨a, b, c, e⟩
    exact ⟨a, b, c, fun ep hep => (e ep hep).1, fun ep hep => (e ep hep).2⟩
  · rintro ⟨a, b, c, e1, e2⟩
    exact ⟨a, b, c, fun ep hep => ⟨e1 ep hep, e2 ep hep⟩⟩

lemma filter_length_pos_eq_any {α : Type} (p : α → Bool) (l : List α) :
    0 < (l.filter p).length ↔ l.any p = true := by
  rw [filter_length_pos, List.any_eq_true]

/-- `specFirstViolation` computed out to a nested conditional over the
rule checks, in precedence order. -/
lemma specFirstViolation_eq_ite (d : SheetData) :
    specFirstViolation d =
      if ruleViolated d .vision then .visionTooLong
      else if ruleViolated d .slogan then .sloganTooLong
      else if ruleViolated d .engine then .engineTooLong
      else if ruleViolated d .episodeText then .episodeTextTooLong
      else if ruleViolated d .episodeFrom then .episodeFromTooLong
      else .ok := by
  simp only [specFirstViolation, precedenceOrder]
  cases hb1 : ruleViolated d Rule.vision <;>
  cases hb2 : ruleViolated d Rule.slogan <;>
  cases hb3 : ruleViolated d Rule.engine <;>
  cases hb4 : ruleViolated d Rule.episodeText <;>
  cases hb5 : ruleViolated d Rule.episodeFrom <;>
  simp [List.find?, hb1, hb2, hb3, hb4, hb5, Rule.result]

/-- `validate`, translated from the source guards, agrees with the spec's
first-violated-rule reading. -/
lemma validate_eq_spec (d : SheetData) :
    validate d = specFirstViolation d := by
  rw [specFirstViolation_eq_ite]
  unfold validate
  simp only [filter_length_pos_eq_any, not_validateTextLength, ruleViolated]

lemma rv_vision_iff (d : SheetData) :
    ruleViolated d Rule.vision = true ↔ ∃ v ∈ d.visions, 30 < v.length := by
  simp [ruleViolated]

lemma rv_slogan_iff (d : SheetData) :
    ruleViolated d Rule.slogan = true ↔ 30 < d.engineSlogan.length := by
  simp [ruleViolated]

lemma rv_engine_iff (d : SheetData) :
    ruleViolated d Rule.engine = true ↔ ∃ e ∈ d.engines, 30 < e.length := by
  simp [ruleViolated]

lemma rv_epText_iff (d : SheetData) :
    ruleViolated d Rule.episodeText = true ↔
      ∃ ep ∈ d.episodes, 80 < ep.text.length := by
  simp [ruleViolated]

lemma rv_epFrom_iff (d : SheetData) :
    ruleViolated d Rule.episodeFrom = true ↔
      ∃ ep ∈ d.episodes, 8 < ep.from_.length := by
  simp [ruleViolated]

/-- The spec's validation result is `ok` exactly on records with every
field within its limit. -/
lemma specFirstViolation_ok_iff (d : SheetData) :
    specFirstViolation d = .ok ↔ withinLimits d := by
  rw [withinLimits_iff, specFirstViolation_eq_ite]
  have r1 := rv_vision_iff d
  have r2 := rv_slogan_iff d
  have r3 := rv_engine_iff d
  have r4 := rv_epText_iff d
  have r5 := rv_epFrom_iff d
  cases hb1 : ruleViolated d Rule.vision <;>
  cases hb2 : ruleViolated d Rule.slogan <;>
  cases hb3 : ruleViolated d Rule.engine <;>
  cases hb4 : ruleViolated d Rule.episodeText <;>
  cases hb5 : ruleViolated d Rule.episodeFrom <;>
  simp_all

/-- `handlePrint`'s actions are determined by the outcome of its guard
sequence: one alert with the violation's message, or one print call. -/
lemma handlePrint_eq (d : SheetData) :
    handlePrint d =
      match validate d with
      | .ok => [UIAction.printCall]
      | r => [UIAction.alert (violationMessage r)] := by
  by_cases c1 :
      0 < (d.visions.filter (fun v => !validateTextLength v 30)).length <;>
  by_cases c2 : (!validateTextLength d.engineSlogan 30) = true <;>
  by_cases c3 :
      0 < (d.engines.filter (fun e => !validateTextLength e 30)).length <;>
  by_cases c4 : 0 < (d.episodes.filter
      (fun ep => !validateTextLength ep.text 80)).length <;>
  by_cases c5 : 0 < (d.episodes.filter
      (fun ep => !validateTextLength ep.from_ 8)).length <;>
  simp [handlePrint, validate, c1, c2, c3, c4, c5]

/-- An engine slogan of 31 characters, every other field empty. -/
def sloganOverLimitData : SheetData :=
  setEngineSlogan defaultData "1234567890123456789012345678901"

/-- The blob the save effect writes (App.tsx line 66):
`JSON.stringify(data)`. -/
def savedBlob (d : SheetData) : Blob := .json (toJson d)

/-- A stored JSON object passing the shape check with empty `visions`,
`engines` and `episodes` arrays. -/
def emptyArraysJson : Json :=
  .obj
    [ ("visions", .arr [])
    , ("engineSlogan", .str "")
    , ("engines", .arr [])
    , ("episodes", .arr []) ]

/-- A stored JSON object passing the shape check whose `visions` array has
the right length but a non-string first element. -/
def numberVisionJson : Json :=
  .obj
    [ ("visions", .arr [.num 1, .str "a", .str "b"])
    , ("engineSlogan", .str "")
    , ("engines", .arr [.str "", .str "", .str ""])
    , ("episodes", .arr (List.replicate 6 (episodeToJson { from_ := "", text := "" }))) ]

lemma shapeCheck_toJson (d : SheetData) : shapeCheck (toJson d) = true := rfl

lemma mapM_stringFromJson (l : List String) :
    (l.map Json.str).mapM stringFromJson = some l := by
  induction l with
  | nil => rfl
  | cons a t ih => rw [List.map_cons, List.mapM_cons, ih]; rfl

lemma episodeFromJson_toJson (ep : Episode) :
    episodeFromJson (episodeToJson ep) = some ep := rfl

lemma mapM_episodeFromJson (l : List Episode) :
    (l.map episodeToJson).mapM episodeFromJson = some l := by
  induction l with
  | nil => rfl
  | cons a t ih =>
    rw [List.map_cons, List.mapM_cons, episodeFromJson_toJson, ih]
    rfl

lemma fromJson_toJson (d : SheetData) : fromJson (toJson d) = some d := by
  have hv : (toJson d).getField "visions" = some (.arr (d.visions.map .str)) := rfl
  have hs : (toJson d).getField "engineSlogan" = some (.str d.engineSlogan) := rfl
  have he : (toJson d).getField "engines" = some (.arr (d.engines.map .str)) := rfl
  have hp : (toJson d).getField "episodes"
      = some (.arr (d.episodes.map episodeToJson)) := rfl
  rw [fromJson, hv, hs, he, hp]
  simp only [mapM_stringFromJson, mapM_episodeFromJson]

lemma jsMapIdx_length (f : Nat → α → α) (l : List α) :
    (jsMapIdx f l).length = l.length := by
  induction l generalizing f with
  | nil => rfl
  | cons a t ih => simp [jsMapIdx, ih]

lemma jsMapIdx_getElem? (f : Nat → α → α) (l : List α) (j : Nat) :
    (jsMapIdx f l)[j]? = (l[j]?).map (f j) := by
  induction l generalizing f j with
  | nil => simp [jsMapIdx]
  | cons a t ih =>
    cases j with
    | zero => simp [jsMapIdx]
    | succ n => simp [jsMapIdx, ih]

lemma set_of_getElem?_eq {α : Type} {l : List α} {i : Nat} {v : α}
    (h : l[i]? = some v) : l.set i v = l := by
  induction l generalizing i with
  | nil => simp at h
  | cons a t ih =>
    cases i with
    | zero =>
      simp at h
      simp [h]
    | succ n =>
      simp at h
      exact congrArg (List.cons a) (ih h)

/-- The current value of an episode's sub-field. -/
def Episode.fieldValue (ep : Episode) : EpisodeField → String
  | .from_ => ep.from_
  | .text => ep.text

lemma updateEpisode_fieldValue (ep : Episode) (f : EpisodeField) :
    updateEpisode ep f (ep.fieldValue f) = ep := by
  cases f <;> rfl

lemma jsMapIdx_episode_self {l : List Episode} {i : Nat} {ep : Episode}
    (f : EpisodeField) (h : l[i]? = some ep) :
    jsMapIdx
      (fun n e => if n = i then updateEpisode e f (ep.fieldValue f) else e)
      l = l := by
  apply List.ext_getElem?
  intro j
  rw [jsMapIdx_getElem?]
  by_cases hj : j = i
  · subst hj
    rw [h]
    simp [updateEpisode_fieldValue]
  · cases hl : l[j]? <;> simp [hj]

/-- The fixed container shapes of the data model: 3 visions, 3 engines,
6 episodes. -/
def recordShapes (d : SheetData) : Prop :=
  d.visions.length = 3 ∧ d.engines.length = 3 ∧ d.episodes.length = 6

/-- Scenario C of the spec: an 11-character `from` written into episode 2
of the otherwise-valid default record. -/
def scenarioCData : SheetData :=
  handleEpisodeChange defaultData 2 .from_ "12345678901"

end PersonalCoreSheet

namespace PersonalCoreSheet

/-! ### Claim theorems -/

/-- C1: for every record, `validate` returns `ok` when every field is
within its stated limit (visions, slogan and engines at most 30
characters, episode texts at most 80, episode `from` at most 8);
otherwise it returns exactly the violation of the first violated rule in
the fixed precedence order vision, slogan, engine, episode text, episode
`from`, deterministically. -/
theorem validate_first_violated_rule (d : SheetData) :
    validate d = specFirstViolation d ∧
      (validate d = .ok ↔ withinLimits d) :=
  ⟨validate_eq_spec d, by
    rw [validate_eq_spec d]
    exact specFirstViolation_ok_iff d⟩

theorem validate_first_violated_rule_witness :
    withinLimits defaultData ∧ validate defaultData = .ok ∧
      validate sloganOverLimitData = specFirstViolation sloganOverLimitData :=
  have h : withinLimits defaultData :=
    ⟨by decide, by decide, by decide, by decide⟩
  ⟨h, (validate_first_violated_rule defaultData).2.mpr h,
    (validate_first_violated_rule sloganOverLimitData).1⟩

/-- C2: the print trigger invokes the print pipeline if and only if
validation of the current record returns `ok`: on a violation it performs
exactly one alert carrying that violation's message and no print call; on
`ok` it performs exactly one print call; in both cases the record is
unchanged (no printing state is retained). -/
theorem print_gate (d : SheetData) :
    (printStep d).1 = d ∧
    (printStep d).2.count UIAction.printCall
      = (if validate d = .ok then 1 else 0) ∧
    (validate d = .ok → (printStep d).2 = [UIAction.printCall]) ∧
    (validate d ≠ .ok →
      (printStep d).2 = [UIAction.alert (violationMessage (validate d))]) := by
  refine ⟨rfl, ?_, ?_, ?_⟩
  · cases hv : validate d <;>
      simp [printStep, handlePrint_eq, hv, List.count_cons, List.count_nil]
  · intro h
    simp [printStep, handlePrint_eq, h]
  · intro h
    cases hv : validate d <;> simp_all [printStep, handlePrint_eq]

theorem print_gate_witness :
    (printStep defaultData).2 = [UIAction.printCall] ∧
    (printStep sloganOverLimitData).1 = sloganOverLimitData ∧
    (printStep sloganOverLimitData).2
      = [UIAction.alert (violationMessage .sloganTooLong)] := by
  have hv : validate sloganOverLimitData = .sloganTooLong := by decide
  refine ⟨(print_gate defaultData).2.2.1 (by decide),
    (print_gate sloganOverLimitData).1, ?_⟩
  have h := (print_gate sloganOverLimitData).2.2.2 (by decide)
  rw [hv] at h
  exact h

/-- C9: the episode text font size is selected in three source tiers with
thresholds at 40 and 80 characters, and the two bands above 40 characters
collapse to the same size value. -/
theorem episode_font_size_tiers :
    (∀ n, n ≤ 40 → getEpisodeFontSize n = "9.6px") ∧
    (∀ n, 40 < n → n ≤ 80 → getEpisodeFontSize n = "7.5px") ∧
    (∀ n, 80 < n → getEpisodeFontSize n = "7.5px") ∧
    (∀ n m, 40 < n → 40 < m →
      getEpisodeFontSize n = getEpisodeFontSize m) := by
  have aux : ∀ n, 40 < n → getEpisodeFontSize n = "7.5px" := by
    intro n h
    unfold getEpisodeFontSize
    rw [if_neg (by omega)]
    by_cases h2 : n ≤ 80 <;> simp [h2]
  refine ⟨?_, ?_, ?_, ?_⟩
  · intro n h
    simp [getEpisodeFontSize, h]
  · intro n h _
    exact aux n h
  · intro n h
    exact aux n (by omega)
  · intro n m hn hm
    rw [aux n hn, aux m hm]

/-- C3: `load` returns absent whenever the storage key is unset, the
stored blob is not parseable, or the parsed value fails the shape check;
in every such case (e.g. the stored string "not json") the model
initializes to the all-empty default record with 3 visions, 3 engines and
6 episodes. -/
theorem load_malformed_returns_absent :
    loadDataFromStorage none = none ∧
    (∀ s, loadDataFromStorage (some (.notJson s)) = none) ∧
    (∀ j, shapeCheck j = false → loadDataFromStorage (some (.json j)) = none) ∧
    initialState (some (.notJson "not json")) = toJson defaultData ∧
    fromJson (toJson defaultData) = some defaultData ∧
    defaultData.visions.length = 3 ∧
    defaultData.engines.length = 3 ∧
    defaultData.episodes.length = 6 ∧
    (∀ v ∈ defaultData.visions, v = "") ∧
    defaultData.engineSlogan = "" ∧
    (∀ e ∈ defaultData.engines, e = "") ∧
    ∀ ep ∈ defaultData.episodes, ep.from_ = "" ∧ ep.text = "" := by
  refine ⟨rfl, fun s => rfl, ?_, rfl, fromJson_toJson _, rfl, rfl, rfl,
    by decide, rfl, by decide, by decide⟩
  intro j h
  simp [loadDataFromStorage, h]

theorem load_malformed_returns_absent_witness :
    shapeCheck Json.null = false ∧
    loadDataFromStorage (some (.json Json.null)) = none ∧
    loadDataFromStorage (some (.notJson "not json")) = none :=
  ⟨rfl, load_malformed_returns_absent.2.2.1 Json.null rfl,
    load_malformed_returns_absent.2.1 "not json"⟩

/-- C4: round-trip — for any record with the correct container shapes,
loading right after saving it returns the saved value, and that value
denotes a record structurally and value-equal to the original. -/
theorem save_load_roundtrip (R : SheetData)
    (hv : R.visions.length = 3) (he : R.engines.length = 3)
    (hp : R.episodes.length = 6) :
    loadDataFromStorage (some (savedBlob R)) = some (toJson R) ∧
    fromJson (toJson R) = some R := by
  constructor
  · simp [loadDataFromStorage, savedBlob, shapeCheck_toJson]
  · exact fromJson_toJson R

theorem save_load_roundtrip_witness :
    loadDataFromStorage (some (savedBlob defaultData))
      = some (toJson defaultData) ∧
    fromJson (toJson defaultData) = some defaultData :=
  save_load_roundtrip defaultData rfl rfl rfl

/-- C10: the shape check of `load` tests only container types, never
sequence lengths or element types — a stored object with empty arrays, or
with a number among the visions, is returned as the record, so the
fixed-shape invariant is not re-established at load time. -/
theorem load_checks_only_container_types :
    shapeCheck emptyArraysJson = true ∧
    loadDataFromStorage (some (.json emptyArraysJson)) = some emptyArraysJson ∧
    (fromJson emptyArraysJson).map (fun d => d.visions.length) = some 0 ∧
    (fromJson emptyArraysJson).map (fun d => d.episodes.length) = some 0 ∧
    (0 : Nat) ≠ 3 ∧
    shapeCheck numberVisionJson = true ∧
    loadDataFromStorage (some (.json numberVisionJson))
      = some numberVisionJson ∧
    fromJson numberVisionJson = none :=
  ⟨rfl, rfl, rfl, rfl, by decide, rfl, rfl, rfl⟩

theorem episode_font_size_tiers_witness :
    getEpisodeFontSize 40 = "9.6px" ∧ getEpisodeFontSize 41 = "7.5px" ∧
    getEpisodeFontSize 100 = "7.5px" ∧
    getEpisodeFontSize 41 = getEpisodeFontSize 100 :=
  ⟨episode_font_size_tiers.1 40 (by decide),
    episode_font_size_tiers.2.1 41 (by decide) (by decide),
    episode_font_size_tiers.2.2.1 100 (by decide),
    episode_font_size_tiers.2.2.2 41 100 (by decide) (by decide)⟩

/-- C5: the sequence lengths (3 visions, 3 engines, 6 episodes) are
invariant under every mutation operation for in-range indices — elements
are replaced in place, never inserted or removed. -/
theorem fixed_shape_invariant (d : SheetData) (h : recordShapes d) :
    (∀ i v, i < 3 → recordShapes (applyMut d (.setVision i v))) ∧
    (∀ i v, i < 3 → recordShapes (applyMut d (.setEngine i v))) ∧
    (∀ v, recordShapes (applyMut d (.setSlogan v))) ∧
    (∀ i f v, i < 6 → recordShapes (applyMut d (.setEpisode i f v))) := by
  obtain ⟨hv, he, hp⟩ := h
  refine ⟨fun i v _ => ?_, fun i v _ => ?_, fun v => ?_,
    fun i f v _ => ?_⟩ <;>
  simp [recordShapes, applyMut, handleVisionChange, handleEngineChange,
    setEngineSlogan, handleEpisodeChange, jsMapIdx_length, hv, he, hp]

theorem fixed_shape_invariant_witness :
    recordShapes defaultData ∧
    recordShapes (applyMut defaultData (.setVision 0 "a")) ∧
    recordShapes (applyMut defaultData (.setEpisode 5 .text "b")) :=
  have h : recordShapes defaultData := ⟨rfl, rfl, rfl⟩
  ⟨h, (fixed_shape_invariant defaultData h).1 0 "a" (by decide),
    (fixed_shape_invariant defaultData h).2.2.2 5 .text "b" (by decide)⟩

/-- C6: frame property of the mutators — for an in-range index each
mutator changes only the addressed element (or the addressed sub-field of
the addressed episode); every other element, sub-field and top-level field
of the record is unchanged. -/
theorem mutator_frame (d : SheetData) (i : Nat) (v : String) :
    ((handleVisionChange d i v).engineSlogan = d.engineSlogan ∧
      (handleVisionChange d i v).engines = d.engines ∧
      (handleVisionChange d i v).episodes = d.episodes ∧
      (i < d.visions.length →
        (handleVisionChange d i v).visions[i]? = some v) ∧
      ∀ j, j ≠ i → (handleVisionChange d i v).visions[j]? = d.visions[j]?) ∧
    ((handleEngineChange d i v).engineSlogan = d.engineSlogan ∧
      (handleEngineChange d i v).visions = d.visions ∧
      (handleEngineChange d i v).episodes = d.episodes ∧
      (i < d.engines.length →
        (handleEngineChange d i v).engines[i]? = some v) ∧
      ∀ j, j ≠ i → (handleEngineChange d i v).engines[j]? = d.engines[j]?) ∧
    ∀ f : EpisodeField,
      (handleEpisodeChange d i f v).visions = d.visions ∧
      (handleEpisodeChange d i f v).engineSlogan = d.engineSlogan ∧
      (handleEpisodeChange d i f v).engines = d.engines ∧
      (∀ ep, d.episodes[i]? = some ep →
        (handleEpisodeChange d i f v).episodes[i]?
          = some (updateEpisode ep f v)) ∧
      (∀ j, j ≠ i →
        (handleEpisodeChange d i f v).episodes[j]? = d.episodes[j]?) ∧
      ∀ ep : Episode, (updateEpisode ep .from_ v).text = ep.text ∧
        (updateEpisode ep .text v).from_ = ep.from_ := by
  refine ⟨⟨rfl, rfl, rfl, fun h => List.getElem?_set_self h,
      fun j hj => List.getElem?_set_ne hj.symm⟩,
    ⟨rfl, rfl, rfl, fun h => List.getElem?_set_self h,
      fun j hj => List.getElem?_set_ne hj.symm⟩, ?_⟩
  intro f
  refine ⟨rfl, rfl, rfl, ?_, ?_, fun ep => ⟨rfl, rfl⟩⟩
  · intro ep h
    show (jsMapIdx _ d.episodes)[i]? = _
    rw [jsMapIdx_getElem?, h]
    simp
  · intro j hj
    show (jsMapIdx _ d.episodes)[j]? = _
    rw [jsMapIdx_getElem?]
    cases d.episodes[j]? <;> simp [hj]

theorem mutator_frame_witness :
    (handleVisionChange defaultData 1 "w").visions[1]? = some "w" ∧
    (handleVisionChange defaultData 1 "w").visions[0]?
      = defaultData.visions[0]? ∧
    (handleEpisodeChange defaultData 2 .from_ "x").episodes[0]?
      = defaultData.episodes[0]? ∧
    (handleEpisodeChange defaultData 2 .from_ "x").episodes[2]?
      = some (updateEpisode { from_ := "", text := "" } .from_ "x") :=
  ⟨(mutator_frame defaultData 1 "w").1.2.2.2.1 (by decide),
    (mutator_frame defaultData 1 "w").1.2.2.2.2 0 (by decide),
    ((mutator_frame defaultData 2 "x").2.2 .from_).2.2.2.2.1 0 (by decide),
    ((mutator_frame defaultData 2 "x").2.2 .from_).2.2.2.1
      { from_ := "", text := "" } rfl⟩

/-- C7: idempotence — calling any mutator with the field's current value
yields a record value-equal to the one before the call, and the event
still triggers exactly one persistence call saving the whole record. -/
theorem mutator_idempotence (d : SheetData) :
    (∀ i v, d.visions[i]? = some v →
      stepMut d (.setVision i v)
        = (d, [.setItem STORAGE_KEY (.json (toJson d))])) ∧
    (∀ i v, d.engines[i]? = some v →
      stepMut d (.setEngine i v)
        = (d, [.setItem STORAGE_KEY (.json (toJson d))])) ∧
    stepMut d (.setSlogan d.engineSlogan)
      = (d, [.setItem STORAGE_KEY (.json (toJson d))]) ∧
    (∀ i ep f, d.episodes[i]? = some ep →
      stepMut d (.setEpisode i f (ep.fieldValue f))
        = (d, [.setItem STORAGE_KEY (.json (toJson d))])) := by
  have base : ∀ e : MutEvent, applyMut d e = d →
      stepMut d e = (d, [.setItem STORAGE_KEY (.json (toJson d))]) := by
    intro e h
    simp [stepMut, h]
  refine ⟨?_, ?_, ?_, ?_⟩
  · intro i v h
    refine base _ ?_
    show { d with visions := d.visions.set i v } = d
    rw [set_of_getElem?_eq h]
  · intro i v h
    refine base _ ?_
    show { d with engines := d.engines.set i v } = d
    rw [set_of_getElem?_eq h]
  · exact base _ rfl
  · intro i ep f h
    refine base _ ?_
    show { d with episodes := jsMapIdx _ d.episodes } = d
    rw [jsMapIdx_episode_self f h]

theorem mutator_idempotence_witness :
    stepMut defaultData (.setVision 0 "")
      = (defaultData, [.setItem STORAGE_KEY (.json (toJson defaultData))]) ∧
    stepMut defaultData
        (.setEpisode 3 .text
          (Episode.fieldValue { from_ := "", text := "" } .text))
      = (defaultData, [.setItem STORAGE_KEY (.json (toJson defaultData))]) :=
  ⟨(mutator_idempotence defaultData).1 0 "" rfl,
    (mutator_idempotence defaultData).2.2.2 3 { from_ := "", text := "" }
      .text rfl⟩

/-- C8: scenario C — writing the 11-character string "12345678901" into
episode 2's `from` of the otherwise-valid default record makes `validate`
return `episodeFromTooLong`, the only over-limit `from` field being the
one at episode index 2, with no other rule violated. -/
theorem episode_from_scenario :
    validate scenarioCData = .episodeFromTooLong ∧
    scenarioCData.episodes.findIdx
      (fun ep => !validateTextLength ep.from_ 8) = 2 ∧
    (scenarioCData.episodes.filter
      (fun ep => !validateTextLength ep.from_ 8)).length = 1 ∧
    ruleViolated scenarioCData .vision = false ∧
    ruleViolated scenarioCData .slogan = false ∧
    ruleViolated scenarioCData .engine = false ∧
    ruleViolated scenarioCData .episodeText = false := by
  decide

end PersonalCoreSheet
